import Mathlib

/-!
Verification development for the oxker input/render concurrency coordinator.

The definitions below are a shallow embedding of `src/input_handler/mod.rs`
and `src/ui/mod.rs`.  The input coordinator is embedded as a pure transition
function from `(environment, state, message)` to `(state, effect trace)`,
where the effect trace records calls into the external state stores, the
outbound docker-command channel, and timer spawn/abort operations.  The
render/lifecycle loop is embedded as a trace-producing function over a
per-iteration oracle schedule.
-/

set_option maxHeartbeats 2000000

namespace Oxker

/-- Sort direction, from `app_data::SortedOrder` (used via `input_handler`). -/
inductive SortedOrder
  | Asc
  | Desc
deriving DecidableEq, Repr, BEq

/-- Container-list column headers, from `app_data::Header` as used by
`InputHandler::sort` and the numeric shortcuts in `button_press`. -/
inductive Header
  | State
  | Status
  | Cpu
  | Memory
  | Id
  | Name
  | Image
  | Rx
  | Tx
deriving DecidableEq, Repr, BEq

/-- The three selectable panels, from `ui::SelectablePanel`. -/
inductive SelectablePanel
  | Containers
  | Logs
  | Commands
deriving DecidableEq, Repr, BEq

/-- Docker lifecycle controls highlighted in the Commands panel, from
`app_data::DockerControls` as matched in `button_press`'s Enter branch. -/
inductive DockerControls
  | Pause
  | Unpause
  | Start
  | Stop
  | Restart
deriving DecidableEq, Repr, BEq

/-- Messages sent on the outbound docker-command channel, from
`docker_data::DockerMessage` as used in `button_press`'s Enter branch. -/
inductive DockerMessage
  | Pause (id : String)
  | Unpause (id : String)
  | Start (id : String)
  | Stop (id : String)
  | Restart (id : String)
deriving DecidableEq, Repr, BEq

/-- Typed application errors, from `app_error::AppError` (the variants the
embedded code constructs or tests). -/
inductive AppError
  | MouseCapture (enabling : Bool)
  | DockerConnect
  | Terminal
deriving DecidableEq, Repr, BEq

/-- Keyboard key codes, from `crossterm::event::KeyCode` (the variants
`button_press` matches on, plus a catch-all for every other key). -/
inductive KeyCode
  | Char (c : Char)
  | Tab
  | BackTab
  | Home
  | End
  | Up
  | Down
  | PageUp
  | PageDown
  | Enter
  | Other
deriving DecidableEq, Repr, BEq

/-- Mouse buttons, from `crossterm::event::MouseButton`. -/
inductive MouseButton
  | Left
  | Right
  | Middle
deriving DecidableEq, Repr, BEq

/-- Mouse event kinds, from `crossterm::event::MouseEventKind` (the variants
`mouse_press` matches on, plus a catch-all). -/
inductive MouseEventKind
  | ScrollUp
  | ScrollDown
  | ButtonDown (b : MouseButton)
  | OtherKind
deriving DecidableEq, Repr, BEq

/-- A mouse event, from `crossterm::event::MouseEvent` (kind and position). -/
structure MouseEvent where
  kind : MouseEventKind
  column : Nat
  row : Nat
deriving DecidableEq, Repr, BEq

/-- Messages on the inbound input channel, from `input_handler::InputMessages`. -/
inductive InputMessages
  | ButtonPress (k : KeyCode)
  | MouseEvent (m : MouseEvent)
deriving DecidableEq, Repr, BEq

/-- The slice of `app_data::AppData` that the input coordinator reads and
writes: the error-overlay flag and stored error, the sorted order, and the
lookups used by command dispatch. -/
structure AppData where
  show_error : Bool
  error : Option AppError
  sorted : Option (Header × SortedOrder)
  docker_command : Option DockerControls
  selected_container_id : Option String
deriving DecidableEq, Repr, BEq

/-- The slice of `ui::GuiState` the input coordinator reads and writes:
the help-overlay flag, the selected panel and the info-banner text. -/
structure GuiState where
  show_help : Bool
  selected_panel : SelectablePanel
  info_box : Option String
deriving DecidableEq, Repr, BEq

/-- A spawned banner-clear timer: its task id and the instant (ms) at which
it fires, from the `tokio::spawn`ed sleep in `InputHandler::m_button`. -/
structure Timer where
  id : Nat
  fires_at : Nat
deriving DecidableEq, Repr, BEq

/-- The state owned by `InputHandler` together with the slices of the two
shared stores it mutates, and the terminal's actual mouse-capture state
(the target of the `execute!` side effect in `m_button`). -/
structure HandlerState where
  app_data : AppData
  gui_state : GuiState
  is_running : Bool
  mouse_capture : Bool
  info_sleep : Option Timer
  next_timer_id : Nat
  terminal_capture : Bool
deriving DecidableEq, Repr, BEq

/-- Per-event environment oracle: the outcome of the `execute!` terminal
call in `m_button`, the outcome of the docker-channel send, the result of
`GuiState::header_intersect` for a click, and the current instant (ms). -/
structure Env where
  execute_ok : Bool
  send_ok : Bool
  header_hit : Option Header
  now : Nat
deriving DecidableEq, Repr, BEq

/-- Calls made into external collaborators (state-store internals that live
outside the embedded files, the docker channel, and tokio tasks), recorded
as an effect trace. -/
inductive Effect
  | containersNext
  | containersPrevious
  | containersStart
  | containersEnd
  | logNext
  | logPrevious
  | logStart
  | logEnd
  | dockerCommandNext
  | dockerCommandPrevious
  | dockerCommandStart
  | dockerCommandEnd
  | panelIntersect (column : Nat) (row : Nat)
  | dockerSend (m : DockerMessage)
  | abortTimer (id : Nat)
  | spawnTimer (id : Nat) (fires_at : Nat)
deriving DecidableEq, Repr, BEq

/-- Modelled from the spec: `AppData::set_error` records a typed application
error which is surfaced through the error overlay (`app_data.rs` is not under
`src/`; the spec says mouse-capture toggle failures are "recorded as a typed
application error surfaced through the normal error overlay"). -/
def setErrorA (a : AppData) (e : AppError) : AppData :=
  { a with error := some e, show_error := true }

/-- Modelled from the spec: the Interface State Store's cyclic next-panel
(`get/set selected panel (with cyclic next/previous)`; `gui_state.rs` is not
under `src/`). -/
def SelectablePanel.nextPanel : SelectablePanel → SelectablePanel
  | .Containers => .Logs
  | .Logs => .Commands
  | .Commands => .Containers

/-- Modelled from the spec: the Interface State Store's cyclic previous-panel
(`get/set selected panel (with cyclic next/previous)`; `gui_state.rs` is not
under `src/`). -/
def SelectablePanel.previousPanel : SelectablePanel → SelectablePanel
  | .Containers => .Commands
  | .Logs => .Containers
  | .Commands => .Logs

/-- The sort-toggle computation of `InputHandler::sort`: start from
`Some (header, Desc)` and only when the current sort is exactly
`(header, Desc)` switch to `Some (header, Asc)`. -/
def sortResult (cur : Option (Header × SortedOrder)) (header : Header) :
    Option (Header × SortedOrder) :=
  match cur with
  | some (h, order) =>
      if order = SortedOrder.Desc ∧ h = header then some (header, SortedOrder.Asc)
      else some (header, SortedOrder.Desc)
  | none => some (header, SortedOrder.Desc)

/-- Apply `InputHandler::sort` to the handler state (locks `app_data`,
computes the toggle, calls `set_sorted`). -/
def sortKey (s : HandlerState) (header : Header) : HandlerState :=
  { s with app_data := { s.app_data with sorted := sortResult s.app_data.sorted header } }

/-- One call of `InputHandler::next`: route a single downward step to the
store method matching the selected panel. -/
def nextStep (s : HandlerState) : HandlerState × List Effect :=
  (s, [match s.gui_state.selected_panel with
       | .Containers => Effect.containersNext
       | .Logs => Effect.logNext
       | .Commands => Effect.dockerCommandNext])

/-- One call of `InputHandler::previous`: route a single upward step to the
store method matching the selected panel. -/
def previousStep (s : HandlerState) : HandlerState × List Effect :=
  (s, [match s.gui_state.selected_panel with
       | .Containers => Effect.containersPrevious
       | .Logs => Effect.logPrevious
       | .Commands => Effect.dockerCommandPrevious])

/-- The `Home` key routing in `button_press`. -/
def homeStep (s : HandlerState) : HandlerState × List Effect :=
  (s, [match s.gui_state.selected_panel with
       | .Containers => Effect.containersStart
       | .Logs => Effect.logStart
       | .Commands => Effect.dockerCommandStart])

/-- The `End` key routing in `button_press`. -/
def endStep (s : HandlerState) : HandlerState × List Effect :=
  (s, [match s.gui_state.selected_panel with
       | .Containers => Effect.containersEnd
       | .Logs => Effect.logEnd
       | .Commands => Effect.dockerCommandEnd])

/-- Iterate a state-and-effects step `n` times, concatenating the traces
(the `for _ in 0..=6` loops in `button_press` iterate `previous`/`next`). -/
def iterateStep (f : HandlerState → HandlerState × List Effect) :
    Nat → HandlerState → HandlerState × List Effect
  | 0, s => (s, [])
  | n + 1, s =>
      let r1 := f s
      let r2 := iterateStep f n r1.1
      (r2.1, r1.2 ++ r2.2)

/-- The `DockerMessage` built for a highlighted control and container id in
`button_press`'s Enter branch. -/
def dockerMessageOf (c : DockerControls) (id : String) : DockerMessage :=
  match c with
  | .Pause => .Pause id
  | .Unpause => .Unpause id
  | .Start => .Start id
  | .Stop => .Stop id
  | .Restart => .Restart id

/-- The Enter branch of `button_press`: only when the selected panel is
Commands, read the highlighted command and the selected container id, and
when both are present send the matching `DockerMessage` (the send result is
discarded by `unwrap_or(())`). -/
def enterAction (s : HandlerState) : HandlerState × List Effect :=
  if s.gui_state.selected_panel = SelectablePanel.Commands then
    match s.app_data.docker_command with
    | some c =>
        match s.app_data.selected_container_id with
        | some id => (s, [Effect.dockerSend (dockerMessageOf c id)])
        | none => (s, [])
    | none => (s, [])
  else (s, [])

/-- `InputHandler::m_button`: try to flip the terminal's mouse-capture mode;
on success publish the info banner, on failure record a typed
`MouseCapture` error; abort any previously scheduled banner-clear timer;
spawn a fresh 4000 ms banner-clear timer; finally flip the local flag. -/
def mButton (env : Env) (s : HandlerState) : HandlerState × List Effect :=
  let s1 :=
    if s.mouse_capture then
      if env.execute_ok then
        { s with terminal_capture := false,
                 gui_state := { s.gui_state with
                                info_box := some "✖ mouse capture disabled" } }
      else
        { s with app_data := setErrorA s.app_data (AppError.MouseCapture false) }
    else
      if env.execute_ok then
        { s with terminal_capture := true,
                 gui_state := { s.gui_state with
                                info_box := some "✓ mouse capture enabled" } }
      else
        { s with app_data := setErrorA s.app_data (AppError.MouseCapture true) }
  let abortEfs : List Effect :=
    match s1.info_sleep with
    | some tm => [Effect.abortTimer tm.id]
    | none => []
  ({ s1 with info_sleep := some ⟨s1.next_timer_id, env.now + 4000⟩,
             next_timer_id := s1.next_timer_id + 1,
             mouse_capture := !s1.mouse_capture },
   abortEfs ++ [Effect.spawnTimer s1.next_timer_id (env.now + 4000)])

/-- The error-mode branch of `button_press` (`show_error` set): only `q`
and `c` do anything. -/
def errorModeKey (s : HandlerState) (k : KeyCode) : HandlerState × List Effect :=
  match k with
  | .Char c =>
      if c = 'q' then ({ s with is_running := false }, [])
      else if c = 'c' then
        ({ s with app_data := { s.app_data with show_error := false, error := none } }, [])
      else (s, [])
  | _ => (s, [])

/-- The help-mode branch of `button_press` (`show_help` set, `show_error`
not): only `q`, `h` and `m` do anything. -/
def helpModeKey (env : Env) (s : HandlerState) (k : KeyCode) : HandlerState × List Effect :=
  match k with
  | .Char c =>
      if c = 'q' then ({ s with is_running := false }, [])
      else if c = 'h' then
        ({ s with gui_state := { s.gui_state with show_help := false } }, [])
      else if c = 'm' then mButton env s
      else (s, [])
  | _ => (s, [])

/-- The normal-mode branch of `button_press` (neither overlay gating): the
full action set, with the same dispatch as the source `match` (character
keys tested in source order inside the `Char` arm). -/
def normalModeKey (env : Env) (s : HandlerState) (k : KeyCode) : HandlerState × List Effect :=
  match k with
  | .Char c =>
      if c = '0' then ({ s with app_data := { s.app_data with sorted := none } }, [])
      else if c = '1' then (sortKey s Header.State, [])
      else if c = '2' then (sortKey s Header.Status, [])
      else if c = '3' then (sortKey s Header.Cpu, [])
      else if c = '4' then (sortKey s Header.Memory, [])
      else if c = '5' then (sortKey s Header.Id, [])
      else if c = '6' then (sortKey s Header.Name, [])
      else if c = '7' then (sortKey s Header.Image, [])
      else if c = '8' then (sortKey s Header.Rx, [])
      else if c = '9' then (sortKey s Header.Tx, [])
      else if c = 'q' then ({ s with is_running := false }, [])
      else if c = 'h' then
        ({ s with gui_state := { s.gui_state with show_help := true } }, [])
      else if c = 'm' then mButton env s
      else if c = 'k' then previousStep s
      else if c = 'j' then nextStep s
      else (s, [])
  | .Tab =>
      ({ s with gui_state := { s.gui_state with
          selected_panel := s.gui_state.selected_panel.nextPanel } }, [])
  | .BackTab =>
      ({ s with gui_state := { s.gui_state with
          selected_panel := s.gui_state.selected_panel.previousPanel } }, [])
  | .Home => homeStep s
  | .End => endStep s
  | .Up => previousStep s
  | .PageUp => iterateStep previousStep 7 s
  | .Down => nextStep s
  | .PageDown => iterateStep nextStep 7 s
  | .Enter => enterAction s
  | .Other => (s, [])

/-- `InputHandler::button_press`: three-way modal dispatch on
(`show_error`, `show_help`). -/
def buttonPress (env : Env) (s : HandlerState) (k : KeyCode) : HandlerState × List Effect :=
  if s.app_data.show_error then errorModeKey s k
  else if s.gui_state.show_help then helpModeKey env s k
  else normalModeKey env s k

/-- `InputHandler::mouse_press`: wheel motion maps to single-step
navigation; a left-button press is tested against the header hit-regions
(a hit toggles sort) and then against the panel hit-regions. -/
def mousePress (env : Env) (s : HandlerState) (me : MouseEvent) : HandlerState × List Effect :=
  match me.kind with
  | .ScrollUp => previousStep s
  | .ScrollDown => nextStep s
  | .ButtonDown .Left =>
      let s1 :=
        match env.header_hit with
        | some h => sortKey s h
        | none => s
      (s1, [Effect.panelIntersect me.column me.row])
  | _ => (s, [])

/-- One iteration of `InputHandler::start`: keys go through the modal
dispatch; mouse events are dispatched only when neither `show_error` nor
`show_help` is set. -/
def processMessage (env : Env) (s : HandlerState) (msg : InputMessages) :
    HandlerState × List Effect :=
  match msg with
  | .ButtonPress k => buttonPress env s k
  | .MouseEvent me =>
      if s.app_data.show_error = false ∧ s.gui_state.show_help = false then
        mousePress env s me
      else (s, [])

/-- The receive loop of `InputHandler::start`: process each message in
order; after each processed message check `is_running` and break when it is
false; stop when the channel closes (list exhausted). -/
def inputLoop (s : HandlerState) : List (Env × InputMessages) → HandlerState × List Effect
  | [] => (s, [])
  | p :: rest =>
      let r1 := processMessage p.1 s p.2
      if r1.1.is_running then
        let r2 := inputLoop r1.1 rest
        (r2.1, r1.2 ++ r2.2)
      else r1

/-! ## Timer world

A small operational model around `mButton` for the cancellable banner-clear
timer: spawned tokio tasks are kept in a list of live timers, `abort`
removes a live timer by id (aborting an already-fired timer is a no-op),
and advancing the clock fires every live timer whose deadline has passed,
each firing recording one banner-clear event at its deadline. -/

/-- The world of spawned banner-clear tasks: the clock (ms), the live
(spawned, unaborted, unfired) timers, and the instants at which a
banner-clear (`reset_info_box`) event fired. -/
structure TimerWorld where
  clock : Nat
  alive : List Timer
  cleared : List Nat
deriving DecidableEq, Repr, BEq

/-- Apply the timer effects of one coordinator step to the task world, in
trace order: `abortTimer` removes the live timer with that id,
`spawnTimer` adds a live timer. -/
def applyTimerEffects (w : TimerWorld) (efs : List Effect) : TimerWorld :=
  efs.foldl
    (fun w e =>
      match e with
      | Effect.abortTimer i => { w with alive := w.alive.filter (fun tm => tm.id ≠ i) }
      | Effect.spawnTimer i t => { w with alive := w.alive ++ [⟨i, t⟩] }
      | _ => w)
    w

/-- Advance the clock to instant `t`: every live timer whose deadline is
reached fires (records a banner-clear at its deadline) and is removed. -/
def advanceTo (t : Nat) (w : TimerWorld) : TimerWorld :=
  { clock := t,
    alive := w.alive.filter (fun tm => t < tm.fires_at),
    cleared := w.cleared ++ (w.alive.filter (fun tm => tm.fires_at ≤ t)).map Timer.fires_at }

/-- An operation in a timer run: a mouse-capture toggle (with the outcome
of the terminal `execute!`), or the passage of time up to instant `t`. -/
inductive TimerOp
  | toggle (execute_ok : Bool)
  | advance (t : Nat)
deriving DecidableEq, Repr, BEq

/-- One step of a timer run: a toggle invokes `mButton` at the current
clock and applies its timer effects; an advance lets pending timers fire. -/
def timerStep : HandlerState × TimerWorld → TimerOp → HandlerState × TimerWorld
  | (s, w), .toggle ok =>
      let r := mButton ⟨ok, true, none, w.clock⟩ s
      (r.1, applyTimerEffects w r.2)
  | (s, w), .advance t => (s, advanceTo t w)

/-- The initial handler state: fields as set in `InputHandler::init`
(`mouse_capture: true`, `info_sleep: None`) over empty stores. -/
def initHandler : HandlerState :=
  { app_data := ⟨false, none, none, none, none⟩,
    gui_state := ⟨false, SelectablePanel.Containers, none⟩,
    is_running := true,
    mouse_capture := true,
    info_sleep := none,
    next_timer_id := 0,
    terminal_capture := true }

/-- The initial timer world: no tasks spawned, nothing fired, clock 0. -/
def initWorld : TimerWorld := ⟨0, [], []⟩

/-- Run a list of timer operations from the initial state. -/
def timerRun (ops : List TimerOp) : HandlerState × TimerWorld :=
  ops.foldl timerStep (initHandler, initWorld)

/-! ## Render/lifecycle loop (`ui/mod.rs`)

The Ui loop is embedded as a trace-producing function over a per-iteration
oracle schedule.  Trace events are invocations of the terminal-lifecycle
procedures, draws, the external exec session, and state-store writes. -/

/-- Primitive terminal backend operations, from the crossterm/ratatui calls
in `ui/mod.rs`. -/
inductive TermOp
  | enableRawMode
  | enterAltScreen
  | enableMouseCapture
  | clear
  | leaveAltScreen
  | disableMouseCapture
  | disableRawMode
  | setCursorPosition
  | showCursor
deriving DecidableEq, Repr, BEq

/-- The terminal operations performed by `Ui::init_terminal` (also the
startup path of `setup_terminal`): enable raw mode, enter the alternate
screen, enable restricted mouse capture. -/
def initTerminalOps : List TermOp :=
  [TermOp.enableRawMode, TermOp.enterAltScreen, TermOp.enableMouseCapture]

/-- The terminal operations performed by `Ui::reset_terminal`: clear, leave
the alternate screen, disable mouse capture, disable raw mode, clear again,
restore the recorded cursor position, show the cursor. -/
def resetTerminalOps : List TermOp :=
  [TermOp.clear, TermOp.leaveAltScreen, TermOp.disableMouseCapture,
   TermOp.disableRawMode, TermOp.clear, TermOp.setCursorPosition, TermOp.showCursor]

/-- Events of the render/lifecycle loop trace: procedure-level invocations
(`reset_terminal`, `init_terminal`), explicit `terminal.clear()` calls, the
awaited exec session, error recording, clearing the Exec status, and draws. -/
inductive UiEvent
  | resetTerminal
  | initTerminal
  | clearScreen
  | runExec
  | setError (e : AppError)
  | statusDelExec
  | drawFrame
  | drawError (countdown : Nat)
deriving DecidableEq, Repr, BEq

/-- The terminal operations performed by each trace event. -/
def termOpsOf : UiEvent → List TermOp
  | .resetTerminal => resetTerminalOps
  | .initTerminal => initTerminalOps
  | .clearScreen => [TermOp.clear]
  | _ => []

/-- `Ui::exec`: given the result of `GuiState::get_exec_mode` (and, when a
session is present, the result of running it — `some e` meaning the session
returned error `e`): when a session is present, reset the terminal, clear,
run the session, and record any session error; then unconditionally clear,
reset the terminal, re-run `init_terminal`, and remove the Exec status. -/
def execHandoff (exec_mode : Option (Option AppError)) : List UiEvent :=
  (match exec_mode with
   | some runResult =>
       [UiEvent.resetTerminal, UiEvent.clearScreen, UiEvent.runExec] ++
       (match runResult with
        | some e => [UiEvent.setError e]
        | none => [])
   | none => []) ++
  [UiEvent.clearScreen, UiEvent.resetTerminal, UiEvent.initTerminal, UiEvent.statusDelExec]

/-- The outcome of an embedded loop: returned `Ok`, returned an error, or
the oracle schedule was exhausted while the loop was still running. -/
inductive LoopResult
  | ok
  | err (e : AppError)
  | fuel
deriving DecidableEq, Repr, BEq

/-- One iteration's oracle for `Ui::gui_loop`: the `is_running` value read
at the top, whether the frame snapshot contains the Exec status, the result
of `get_exec_mode` (and the session run) for the hand-off, and whether the
draw succeeds. -/
structure GuiIter where
  running : Bool
  has_exec : Bool
  exec_mode : Option (Option AppError)
  draw_ok : Bool
deriving DecidableEq, Repr, BEq

/-- `Ui::gui_loop`: while `is_running` (checked at the top of every
iteration) build the frame snapshot, perform the exec hand-off when the
snapshot contains the Exec status, then draw — a draw failure returns
`AppError::Terminal`. -/
def guiLoop : List GuiIter → List UiEvent × LoopResult
  | [] => ([], LoopResult.fuel)
  | it :: rest =>
      if it.running then
        let execPart := if it.has_exec then execHandoff it.exec_mode else []
        if it.draw_ok then
          let r := guiLoop rest
          (execPart ++ UiEvent.drawFrame :: r.1, r.2)
        else (execPart, LoopResult.err AppError.Terminal)
      else ([], LoopResult.ok)

/-- One iteration's oracle for `Ui::err_loop`: whether a full second has
elapsed since `now` was last reset, and whether the draw succeeds. -/
structure ErrIter where
  second_elapsed : Bool
  draw_ok : Bool
deriving DecidableEq, Repr, BEq

/-- `Ui::err_loop`: starting from `seconds = 5`, each iteration decrements
the countdown when a second has elapsed and breaks once it falls below 1;
otherwise it draws the fixed error overlay with the countdown, and a draw
failure returns `AppError::Terminal`. -/
def errLoop (seconds : Nat) : List ErrIter → List UiEvent × LoopResult
  | [] => ([], LoopResult.fuel)
  | it :: rest =>
      let seconds1 := if it.second_elapsed then seconds - 1 else seconds
      if it.second_elapsed ∧ seconds1 < 1 then ([], LoopResult.ok)
      else if it.draw_ok then
        let r := errLoop seconds1 rest
        (UiEvent.drawError seconds1 :: r.1, r.2)
      else ([], LoopResult.err AppError.Terminal)

/-- The countdown values drawn by a run of `err_loop` in which every draw
succeeds. -/
def errDraws (seconds : Nat) : List ErrIter → List Nat
  | [] => []
  | it :: rest =>
      let seconds1 := if it.second_elapsed then seconds - 1 else seconds
      if it.second_elapsed ∧ seconds1 < 1 then []
      else seconds1 :: errDraws seconds1 rest

/-- `Ui::draw_ui`: read the status set once; when it reports the
docker-connect error run `err_loop`, otherwise run `gui_loop`. -/
def drawUi (docker_connect : Bool) (errSched : List ErrIter) (guiSched : List GuiIter) :
    List UiEvent × LoopResult :=
  if docker_connect then errLoop 5 errSched else guiLoop guiSched

/-- `Ui::start`: set the terminal up; when setup succeeds run `draw_ui` and
afterwards — whether or not it returned an error — call `reset_terminal`
exactly once; when setup fails nothing runs. -/
def uiStart (setup_ok : Bool) (docker_connect : Bool)
    (errSched : List ErrIter) (guiSched : List GuiIter) : List UiEvent :=
  if setup_ok then
    UiEvent.initTerminal :: ((drawUi docker_connect errSched guiSched).1 ++ [UiEvent.resetTerminal])
  else []

/-- Number of `reset_terminal` invocations in a Ui trace. -/
def resetCount (tr : List UiEvent) : Nat :=
  tr.countP (fun e => e == UiEvent.resetTerminal)

/-! ## Helper lemmas -/

lemma nextStep_fst (s : HandlerState) : (nextStep s).1 = s := rfl

lemma previousStep_fst (s : HandlerState) : (previousStep s).1 = s := rfl

lemma iterateStep_of_fst_eq (f : HandlerState → HandlerState × List Effect)
    (hf : ∀ s, (f s).1 = s) (n : Nat) (s : HandlerState) :
    iterateStep f n s = (s, List.flatten (List.replicate n (f s).2)) := by
  induction n with
  | zero => simp [iterateStep]
  | succ n ih =>
      simp only [iterateStep, List.replicate_succ, List.flatten_cons]
      rw [hf, ih]

lemma enterAction_fst (s : HandlerState) : (enterAction s).1 = s := by
  unfold enterAction
  split
  · cases hc : s.app_data.docker_command with
    | none => simp
    | some c =>
        cases hid : s.app_data.selected_container_id with
        | none => simp
        | some id => simp
  · rfl

lemma mButton_spec (env : Env) (s : HandlerState) :
    (mButton env s).1.mouse_capture = !s.mouse_capture
    ∧ (mButton env s).1.info_sleep = some ⟨s.next_timer_id, env.now + 4000⟩
    ∧ (mButton env s).1.next_timer_id = s.next_timer_id + 1
    ∧ (mButton env s).1.app_data.sorted = s.app_data.sorted
    ∧ (mButton env s).1.is_running = s.is_running
    ∧ (mButton env s).2
        = (match s.info_sleep with
           | some tm => [Effect.abortTimer tm.id]
           | none => []) ++ [Effect.spawnTimer s.next_timer_id (env.now + 4000)] := by
  cases hm : s.mouse_capture <;> cases he : env.execute_ok <;>
    simp [mButton, setErrorA, hm, he]

lemma mButton_failure (env : Env) (s : HandlerState) (he : env.execute_ok = false) :
    (mButton env s).1.app_data.error = some (AppError.MouseCapture (!s.mouse_capture))
    ∧ (mButton env s).1.app_data.show_error = true
    ∧ (mButton env s).1.gui_state.info_box = s.gui_state.info_box
    ∧ (mButton env s).1.terminal_capture = s.terminal_capture := by
  cases hm : s.mouse_capture <;> simp [mButton, setErrorA, hm, he]

lemma sortResult_ne_none (cur : Option (Header × SortedOrder)) (h : Header) :
    sortResult cur h ≠ none := by
  cases cur with
  | none => simp [sortResult]
  | some p =>
      rcases p with ⟨h0, ord⟩
      by_cases hd : ord = SortedOrder.Desc ∧ h0 = h <;> simp [sortResult, hd]

lemma errorModeKey_sorted (s : HandlerState) (k : KeyCode) :
    (errorModeKey s k).1.app_data.sorted = s.app_data.sorted := by
  cases k <;> simp only [errorModeKey] <;> try rfl
  split_ifs <;> rfl

lemma helpModeKey_sorted (env : Env) (s : HandlerState) (k : KeyCode) :
    (helpModeKey env s k).1.app_data.sorted = s.app_data.sorted := by
  cases k <;> simp only [helpModeKey] <;> try rfl
  split_ifs <;> first
    | rfl
    | exact (mButton_spec env s).2.2.2.1

lemma normalModeKey_sorted (env : Env) (s : HandlerState) (k : KeyCode) :
    (normalModeKey env s k).1.app_data.sorted = s.app_data.sorted
    ∨ k = KeyCode.Char '0'
    ∨ (normalModeKey env s k).1.app_data.sorted ≠ none := by
  cases k with
  | Char c =>
      simp only [normalModeKey]
      by_cases h0 : c = '0'
      · exact Or.inr (Or.inl (by rw [h0]))
      simp only [if_neg h0]
      by_cases h1 : c = '1'
      · simp only [if_pos h1]
        exact Or.inr (Or.inr (sortResult_ne_none _ _))
      simp only [if_neg h1]
      by_cases h2 : c = '2'
      · simp only [if_pos h2]
        exact Or.inr (Or.inr (sortResult_ne_none _ _))
      simp only [if_neg h2]
      by_cases h3 : c = '3'
      · simp only [if_pos h3]
        exact Or.inr (Or.inr (sortResult_ne_none _ _))
      simp only [if_neg h3]
      by_cases h4 : c = '4'
      · simp only [if_pos h4]
        exact Or.inr (Or.inr (sortResult_ne_none _ _))
      simp only [if_neg h4]
      by_cases h5 : c = '5'
      · simp only [if_pos h5]
        exact Or.inr (Or.inr (sortResult_ne_none _ _))
      simp only [if_neg h5]
      by_cases h6 : c = '6'
      · simp only [if_pos h6]
        exact Or.inr (Or.inr (sortResult_ne_none _ _))
      simp only [if_neg h6]
      by_cases h7 : c = '7'
      · simp only [if_pos h7]
        exact Or.inr (Or.inr (sortResult_ne_none _ _))
      simp only [if_neg h7]
      by_cases h8 : c = '8'
      · simp only [if_pos h8]
        exact Or.inr (Or.inr (sortResult_ne_none _ _))
      simp only [if_neg h8]
      by_cases h9 : c = '9'
      · simp only [if_pos h9]
        exact Or.inr (Or.inr (sortResult_ne_none _ _))
      simp only [if_neg h9]
      by_cases hq : c = 'q'
      · simp only [if_pos hq]
        exact Or.inl (by trivial)
      simp only [if_neg hq]
      by_cases hh : c = 'h'
      · simp only [if_pos hh]
        exact Or.inl (by trivial)
      simp only [if_neg hh]
      by_cases hm : c = 'm'
      · simp only [if_pos hm]
        exact Or.inl ((mButton_spec env s).2.2.2.1)
      simp only [if_neg hm]
      by_cases hk : c = 'k'
      · simp only [if_pos hk]
        exact Or.inl (by trivial)
      simp only [if_neg hk]
      by_cases hj : c = 'j'
      · simp only [if_pos hj]
        exact Or.inl (by trivial)
      simp only [if_neg hj]
      exact Or.inl (by trivial)
  | PageUp =>
      exact Or.inl (by
        simp only [normalModeKey]
        rw [iterateStep_of_fst_eq previousStep previousStep_fst])
  | PageDown =>
      exact Or.inl (by
        simp only [normalModeKey]
        rw [iterateStep_of_fst_eq nextStep nextStep_fst])
  | Enter =>
      exact Or.inl (by simp only [normalModeKey]; rw [enterAction_fst])
  | _ => exact Or.inl rfl

lemma buttonPress_sorted (env : Env) (s : HandlerState) (k : KeyCode) :
    (buttonPress env s k).1.app_data.sorted = s.app_data.sorted
    ∨ k = KeyCode.Char '0'
    ∨ (buttonPress env s k).1.app_data.sorted ≠ none := by
  by_cases hse : s.app_data.show_error
  · have hb : buttonPress env s k = errorModeKey s k := by simp [buttonPress, hse]
    rw [hb]
    exact Or.inl (errorModeKey_sorted s k)
  by_cases hsh : s.gui_state.show_help
  · have hb : buttonPress env s k = helpModeKey env s k := by simp [buttonPress, hse, hsh]
    rw [hb]
    exact Or.inl (helpModeKey_sorted env s k)
  have hb : buttonPress env s k = normalModeKey env s k := by simp [buttonPress, hse, hsh]
  rw [hb]
  exact normalModeKey_sorted env s k

lemma mousePress_sorted (env : Env) (s : HandlerState) (me : MouseEvent) :
    (mousePress env s me).1.app_data.sorted = s.app_data.sorted
    ∨ ∃ h, (mousePress env s me).1.app_data.sorted = sortResult s.app_data.sorted h := by
  unfold mousePress
  cases me.kind with
  | ScrollUp => exact Or.inl rfl
  | ScrollDown => exact Or.inl rfl
  | ButtonDown b =>
      cases b with
      | Left =>
          cases hh : env.header_hit with
          | none => exact Or.inl (by simp [hh])
          | some h => exact Or.inr ⟨h, by simp [hh, sortKey]⟩
      | Right => exact Or.inl rfl
      | Middle => exact Or.inl rfl
  | OtherKind => exact Or.inl rfl

/-- The coordinator/timer-world invariant: any live spawned timer is
exactly the one referenced by the coordinator's `info_sleep` handle. -/
def TimerInv : HandlerState × TimerWorld → Prop
  | (s, w) => w.alive = [] ∨ ∃ tm, s.info_sleep = some tm ∧ w.alive = [tm]

lemma timerStep_inv (p : HandlerState × TimerWorld) (op : TimerOp) (h : TimerInv p) :
    TimerInv (timerStep p op) := by
  obtain ⟨s, w⟩ := p
  simp only [TimerInv] at h
  cases op with
  | toggle ok =>
      have hefs := (mButton_spec ⟨ok, true, none, w.clock⟩ s).2.2.2.2.2
      have hsleep := (mButton_spec ⟨ok, true, none, w.clock⟩ s).2.1
      simp only [timerStep, TimerInv, hefs]
      cases hinfo : s.info_sleep with
      | none =>
          have halive : w.alive = [] := by
            rcases h with h1 | ⟨tm, htm, _⟩
            · exact h1
            · rw [hinfo] at htm
              exact Option.noConfusion htm
          refine Or.inr ⟨⟨s.next_timer_id, w.clock + 4000⟩, ?_, ?_⟩
          · simpa using hsleep
          · simp [applyTimerEffects, halive]
      | some tm =>
          have halive : w.alive = [] ∨ w.alive = [tm] := by
            rcases h with h1 | ⟨tm2, htm2, halive2⟩
            · exact Or.inl h1
            · rw [hinfo] at htm2
              obtain rfl : tm = tm2 := Option.some.inj htm2
              exact Or.inr halive2
          refine Or.inr ⟨⟨s.next_timer_id, w.clock + 4000⟩, ?_, ?_⟩
          · simpa using hsleep
          · rcases halive with h1 | h1 <;> simp [applyTimerEffects, h1]
  | advance t =>
      simp only [timerStep, TimerInv]
      rcases h with h1 | ⟨tm, htm, halive⟩
      · exact Or.inl (by simp [advanceTo, h1])
      · by_cases hf : t < tm.fires_at
        · exact Or.inr ⟨tm, htm, by simp [advanceTo, halive, hf]⟩
        · exact Or.inl (by simp [advanceTo, halive, hf])

lemma timerRun_inv (ops : List TimerOp) : TimerInv (timerRun ops) := by
  have hgen : ∀ (l : List TimerOp) (p : HandlerState × TimerWorld),
      TimerInv p → TimerInv (l.foldl timerStep p) := by
    intro l
    induction l with
    | nil => exact fun p h => h
    | cons op rest ih => exact fun p h => ih _ (timerStep_inv p op h)
  exact hgen ops (initHandler, initWorld) (Or.inl rfl)

lemma timer_scenario (t0 t1 T : Nat) (b0 b1 : Bool)
    (h01 : t0 < t1) (h1w : t1 < t0 + 4000) (hT : t1 + 4000 ≤ T) :
    (timerRun [TimerOp.advance t0, TimerOp.toggle b0, TimerOp.advance t1,
               TimerOp.toggle b1, TimerOp.advance T]).2.cleared = [t1 + 4000] := by
  have hA : ¬ (t0 + 4000 ≤ t1) := by omega
  have hC : ¬ (T < t1 + 4000) := by omega
  have hP1 : timerStep (initHandler, initWorld) (TimerOp.advance t0)
      = (initHandler, ⟨t0, [], []⟩) := by
    simp [timerStep, advanceTo, initWorld]
  have hefs0 : (mButton ⟨b0, true, none, t0⟩ initHandler).2
      = [Effect.spawnTimer 0 (t0 + 4000)] := by
    simpa [initHandler] using (mButton_spec ⟨b0, true, none, t0⟩ initHandler).2.2.2.2.2
  have hP2 : timerStep (initHandler, ⟨t0, [], []⟩) (TimerOp.toggle b0)
      = ((mButton ⟨b0, true, none, t0⟩ initHandler).1, ⟨t0, [⟨0, t0 + 4000⟩], []⟩) := by
    simp only [timerStep, hefs0]
    simp [applyTimerEffects]
  have hP3 : timerStep ((mButton ⟨b0, true, none, t0⟩ initHandler).1,
        (⟨t0, [⟨0, t0 + 4000⟩], []⟩ : TimerWorld)) (TimerOp.advance t1)
      = ((mButton ⟨b0, true, none, t0⟩ initHandler).1, ⟨t1, [⟨0, t0 + 4000⟩], []⟩) := by
    simp [timerStep, advanceTo, h1w, hA]
  have hs2sleep : ((mButton ⟨b0, true, none, t0⟩ initHandler).1).info_sleep
      = some ⟨0, t0 + 4000⟩ := by
    simpa [initHandler] using (mButton_spec ⟨b0, true, none, t0⟩ initHandler).2.1
  have hs2nid : ((mButton ⟨b0, true, none, t0⟩ initHandler).1).next_timer_id = 1 := by
    simpa [initHandler] using (mButton_spec ⟨b0, true, none, t0⟩ initHandler).2.2.1
  have hefs1 : (mButton ⟨b1, true, none, t1⟩ ((mButton ⟨b0, true, none, t0⟩ initHandler).1)).2
      = [Effect.abortTimer 0, Effect.spawnTimer 1 (t1 + 4000)] := by
    have h := (mButton_spec ⟨b1, true, none, t1⟩
      ((mButton ⟨b0, true, none, t0⟩ initHandler).1)).2.2.2.2.2
    rw [hs2sleep, hs2nid] at h
    simpa using h
  have hP4 : timerStep ((mButton ⟨b0, true, none, t0⟩ initHandler).1,
        (⟨t1, [⟨0, t0 + 4000⟩], []⟩ : TimerWorld)) (TimerOp.toggle b1)
      = ((mButton ⟨b1, true, none, t1⟩ ((mButton ⟨b0, true, none, t0⟩ initHandler).1)).1,
         ⟨t1, [⟨1, t1 + 4000⟩], []⟩) := by
    simp only [timerStep, hefs1]
    simp [applyTimerEffects]
  have hP5 : timerStep ((mButton ⟨b1, true, none, t1⟩
        ((mButton ⟨b0, true, none, t0⟩ initHandler).1)).1,
        (⟨t1, [⟨1, t1 + 4000⟩], []⟩ : TimerWorld)) (TimerOp.advance T)
      = ((mButton ⟨b1, true, none, t1⟩ ((mButton ⟨b0, true, none, t0⟩ initHandler).1)).1,
         ⟨T, [], [t1 + 4000]⟩) := by
    simp [timerStep, advanceTo, hC, hT]
  unfold timerRun
  simp only [List.foldl_cons, List.foldl_nil]
  rw [hP1, hP2, hP3, hP4, hP5]

lemma inputLoop_head_stop (env : Env) (s : HandlerState) (msg : InputMessages)
    (rest : List (Env × InputMessages))
    (h : (processMessage env s msg).1.is_running = false) :
    inputLoop s ((env, msg) :: rest) = processMessage env s msg := by
  simp [inputLoop, h]

lemma inputLoop_suffix_irrelevant (pre : List (Env × InputMessages)) :
    ∀ (s : HandlerState) (p : Env × InputMessages) (extra : List (Env × InputMessages)),
    (inputLoop s (pre ++ [p])).1.is_running = false →
    inputLoop s (pre ++ [p] ++ extra) = inputLoop s (pre ++ [p]) := by
  induction pre with
  | nil =>
      intro s p extra h
      simp only [List.nil_append] at h ⊢
      by_cases hr : (processMessage p.1 s p.2).1.is_running
      · exfalso
        have h1 : (inputLoop s [p]).1 = (processMessage p.1 s p.2).1 := by
          simp [inputLoop, hr]
        rw [h1, hr] at h
        exact Bool.noConfusion h
      · show inputLoop s (p :: extra) = inputLoop s [p]
        simp only [Bool.not_eq_true] at hr
        rw [inputLoop_head_stop p.1 s p.2 extra hr, inputLoop_head_stop p.1 s p.2 [] hr]
  | cons q pre ih =>
      intro s p extra h
      simp only [List.cons_append] at h ⊢
      by_cases hr : (processMessage q.1 s q.2).1.is_running
      · have hfst : (inputLoop s (q :: (pre ++ [p]))).1
            = (inputLoop (processMessage q.1 s q.2).1 (pre ++ [p])).1 := by
          simp [inputLoop, hr]
        rw [hfst] at h
        have hrec := ih (processMessage q.1 s q.2).1 p extra h
        rw [List.append_assoc, List.singleton_append] at hrec
        simp [inputLoop, hr, hrec]
      · simp only [Bool.not_eq_true] at hr
        rw [show (q :: (pre ++ [p] ++ extra)) = q :: ((pre ++ [p]) ++ extra) by simp,
            inputLoop_head_stop q.1 s q.2 _ hr, inputLoop_head_stop q.1 s q.2 _ hr]

lemma guiLoop_head_stop (it : GuiIter) (post : List GuiIter) (h : it.running = false) :
    guiLoop (it :: post) = ([], LoopResult.ok) := by
  simp [guiLoop, h]

lemma guiLoop_suffix_irrelevant (pre : List GuiIter) (it : GuiIter) (post : List GuiIter)
    (h : it.running = false) :
    guiLoop (pre ++ it :: post) = guiLoop (pre ++ [it]) := by
  induction pre with
  | nil =>
      simp only [List.nil_append]
      rw [guiLoop_head_stop it post h, guiLoop_head_stop it [] h]
  | cons q pre ih =>
      simp only [List.cons_append, guiLoop, List.append_eq]
      rw [ih]

/-! ## Render/lifecycle trace lemmas -/

lemma errLoop_countdown_bounds (l : List ErrIter) :
    ∀ s : Nat, 1 ≤ s → ∀ ev ∈ (errLoop s l).1,
      ∃ n, ev = UiEvent.drawError n ∧ 1 ≤ n ∧ n ≤ s := by
  induction l with
  | nil =>
      intro s hs ev hev
      simp [errLoop] at hev
  | cons it rest ih =>
      intro s hs ev hev
      simp only [errLoop] at hev
      by_cases hbrk : it.second_elapsed = true ∧ (if it.second_elapsed then s - 1 else s) < 1
      · rw [if_pos hbrk] at hev
        simp at hev
      · rw [if_neg hbrk] at hev
        have hs1 : 1 ≤ (if it.second_elapsed then s - 1 else s) := by
          by_cases htick : it.second_elapsed = true
          · have : ¬ (s - 1 < 1) := fun hlow => hbrk ⟨htick, by simp [htick, hlow]⟩
            simp [htick]
            omega
          · simp only [Bool.not_eq_true] at htick
            simp [htick]
            omega
        by_cases hd : it.draw_ok
        · rw [if_pos hd] at hev
          rcases List.mem_cons.mp hev with heq | htail
          · exact ⟨_, heq, hs1, by
              by_cases htick : it.second_elapsed = true <;> simp [htick] <;> omega⟩
          · obtain ⟨n, hn, h1n, hns⟩ := ih _ hs1 ev htail
            refine ⟨n, hn, h1n, le_trans hns ?_⟩
            by_cases htick : it.second_elapsed = true <;> simp [htick] <;> omega
        · rw [if_neg hd] at hev
          simp at hev

lemma errLoop_all_ok_trace (l : List ErrIter) :
    ∀ s : Nat, (∀ it ∈ l, it.draw_ok = true) →
      (errLoop s l).1 = (errDraws s l).map UiEvent.drawError := by
  induction l with
  | nil => intro s _; simp [errLoop, errDraws]
  | cons it rest ih =>
      intro s h
      have hd : it.draw_ok = true := h it (by simp)
      simp only [errLoop, errDraws]
      by_cases hbrk : it.second_elapsed = true ∧ (if it.second_elapsed then s - 1 else s) < 1
      · rw [if_pos hbrk, if_pos hbrk]
        simp
      · rw [if_neg hbrk, if_neg hbrk, if_pos hd]
        simp only [List.map_cons, List.cons.injEq]
        exact ⟨by trivial, ih _ fun it2 h2 => h it2 (List.mem_cons_of_mem _ h2)⟩

lemma errLoop_result_iff (l : List ErrIter) :
    ∀ s : Nat, 1 ≤ s → (∀ it ∈ l, it.draw_ok = true) →
      ((errLoop s l).2 = LoopResult.ok ↔ s ≤ l.countP (fun it => it.second_elapsed)) := by
  induction l with
  | nil =>
      intro s hs _
      simp only [errLoop, List.countP_nil]
      constructor
      · intro hfe
        exact absurd hfe (by simp)
      · intro hle
        omega
  | cons it rest ih =>
      intro s hs h
      have hd : it.draw_ok = true := h it (by simp)
      have hrest : ∀ it2 ∈ rest, it2.draw_ok = true :=
        fun it2 h2 => h it2 (List.mem_cons_of_mem _ h2)
      simp only [errLoop]
      by_cases htick : it.second_elapsed = true
      · by_cases hlow : s - 1 < 1
        · have hbrk : it.second_elapsed = true ∧ (if it.second_elapsed then s - 1 else s) < 1 :=
            ⟨htick, by simp [htick, hlow]⟩
          rw [if_pos hbrk]
          simp [List.countP_cons, htick]
          omega
        · have hbrk : ¬ (it.second_elapsed = true ∧
              (if it.second_elapsed then s - 1 else s) < 1) := by
            simp [htick]
            omega
          rw [if_neg hbrk, if_pos hd]
          have hrec := ih (s - 1) (by omega) hrest
          simp [List.countP_cons, htick]
          rw [hrec]
          omega
      · simp only [Bool.not_eq_true] at htick
        have hbrk : ¬ (it.second_elapsed = true ∧
            (if it.second_elapsed then s - 1 else s) < 1) := by
          simp [htick]
        rw [if_neg hbrk, if_pos hd]
        have hrec := ih s hs hrest
        simp [List.countP_cons, htick]
        rw [hrec]

lemma errLoop_reset_count (l : List ErrIter) (s : Nat) (hs : 1 ≤ s) :
    resetCount (errLoop s l).1 = 0 := by
  rw [resetCount, List.countP_eq_zero]
  intro ev hev
  obtain ⟨n, rfl, _, _⟩ := errLoop_countdown_bounds l s hs ev hev
  exact fun hcontra => Bool.noConfusion hcontra

lemma guiLoop_no_exec_draws (g : List GuiIter) (hg : ∀ it ∈ g, it.has_exec = false) :
    ∀ ev ∈ (guiLoop g).1, ev = UiEvent.drawFrame := by
  induction g with
  | nil =>
      intro ev hev
      simp [guiLoop] at hev
  | cons it rest ih =>
      intro ev hev
      have hx : it.has_exec = false := hg it (by simp)
      simp only [guiLoop] at hev
      by_cases hr : it.running
      · rw [if_pos hr] at hev
        simp only [hx, Bool.false_eq_true, if_false] at hev
        by_cases hd : it.draw_ok
        · rw [if_pos hd] at hev
          simp only [List.nil_append] at hev
          rcases List.mem_cons.mp hev with heq | htail
          · exact heq
          · exact ih (fun it2 h2 => hg it2 (List.mem_cons_of_mem _ h2)) ev htail
        · rw [if_neg hd] at hev
          simp at hev
      · rw [if_neg hr] at hev
        simp at hev

lemma guiLoop_no_exec_reset_count (g : List GuiIter) (hg : ∀ it ∈ g, it.has_exec = false) :
    resetCount (guiLoop g).1 = 0 := by
  rw [resetCount, List.countP_eq_zero]
  intro ev hev
  rw [guiLoop_no_exec_draws g hg ev hev]
  exact fun hcontra => Bool.noConfusion hcontra

lemma uiStart_getLast (dc : Bool) (e : List ErrIter) (g : List GuiIter) :
    (uiStart true dc e g).getLast? = some UiEvent.resetTerminal := by
  simp only [uiStart, if_pos]
  rw [← List.cons_append, List.getLast?_concat]

lemma uiStart_reset_count (dc : Bool) (e : List ErrIter) (g : List GuiIter) :
    resetCount (uiStart true dc e g) = resetCount (drawUi dc e g).1 + 1 := by
  simp [uiStart, resetCount, List.countP_cons, List.countP_append,
        show (UiEvent.resetTerminal == UiEvent.resetTerminal) = true from rfl,
        show (UiEvent.initTerminal == UiEvent.resetTerminal) = false from rfl]

/-! ## Witness fixtures -/

/-- A benign per-event environment for concrete witnesses. -/
def envT : Env := ⟨true, true, none, 0⟩

/-- The environment in which the terminal mouse-capture `execute!` fails. -/
def envFail : Env := ⟨false, true, none, 0⟩

/-- The initial state with the error overlay raised. -/
def errState : HandlerState :=
  { initHandler with app_data := { initHandler.app_data with show_error := true } }

/-- The initial state with the help overlay raised. -/
def helpState : HandlerState :=
  { initHandler with gui_state := { initHandler.gui_state with show_help := true } }

/-- The initial state with the Commands panel selected and a highlighted
command and selected container id present. -/
def cmdState : HandlerState :=
  { initHandler with
    gui_state := { initHandler.gui_state with selected_panel := SelectablePanel.Commands },
    app_data := { initHandler.app_data with
                  docker_command := some DockerControls.Restart,
                  selected_container_id := some "abc123" } }

/-- The initial state with the Logs panel selected. -/
def logsState : HandlerState :=
  { initHandler with
    gui_state := { initHandler.gui_state with selected_panel := SelectablePanel.Logs } }

/-- A concrete wheel mouse event. -/
def wheelEvent : MouseEvent := ⟨MouseEventKind.ScrollDown, 3, 4⟩

/-! ## Claim theorems -/

/-- C1: modal routing of the input coordinator.  When the error flag is
set, only `q` (clears the running flag) and `c` (clears the error flag and
removes the stored error) change the observable state and every other key
is a no-op; when the help overlay is set and the error flag is not, only
`q`, `h` (closes help) and `m` (mouse-capture toggle) change the
observable state; mouse events are dispatched only when neither the error
flag nor the help overlay is active. -/
theorem c1_modal_routing (env : Env) (s : HandlerState) :
    (s.app_data.show_error = true →
      (∀ k : KeyCode, k ≠ KeyCode.Char 'q' → k ≠ KeyCode.Char 'c' →
         processMessage env s (InputMessages.ButtonPress k) = (s, []))
      ∧ processMessage env s (InputMessages.ButtonPress (KeyCode.Char 'q'))
          = ({ s with is_running := false }, [])
      ∧ processMessage env s (InputMessages.ButtonPress (KeyCode.Char 'c'))
          = ({ s with app_data := { s.app_data with show_error := false, error := none } }, [])
      ∧ (processMessage env s (InputMessages.ButtonPress (KeyCode.Char 'c'))).1 ≠ s
      ∧ (s.is_running = true →
          (processMessage env s (InputMessages.ButtonPress (KeyCode.Char 'q'))).1 ≠ s))
    ∧ (s.app_data.show_error = false → s.gui_state.show_help = true →
      (∀ k : KeyCode, k ≠ KeyCode.Char 'q' → k ≠ KeyCode.Char 'h' → k ≠ KeyCode.Char 'm' →
         processMessage env s (InputMessages.ButtonPress k) = (s, []))
      ∧ (processMessage env s (InputMessages.ButtonPress (KeyCode.Char 'q'))).1
          = { s with is_running := false }
      ∧ (processMessage env s (InputMessages.ButtonPress (KeyCode.Char 'h'))).1 ≠ s
      ∧ (processMessage env s (InputMessages.ButtonPress (KeyCode.Char 'm'))).1 ≠ s
      ∧ (s.is_running = true →
          (processMessage env s (InputMessages.ButtonPress (KeyCode.Char 'q'))).1 ≠ s))
    ∧ (∀ me : MouseEvent, s.app_data.show_error = true ∨ s.gui_state.show_help = true →
       processMessage env s (InputMessages.MouseEvent me) = (s, []))
    ∧ (∀ me : MouseEvent, s.app_data.show_error = false → s.gui_state.show_help = false →
       processMessage env s (InputMessages.MouseEvent me) = mousePress env s me) := by
  refine ⟨?_, ?_, ?_, ?_⟩
  · intro hse
    have hq : processMessage env s (InputMessages.ButtonPress (KeyCode.Char 'q'))
        = ({ s with is_running := false }, []) := by
      simp [processMessage, buttonPress, hse, errorModeKey]
    have hc : processMessage env s (InputMessages.ButtonPress (KeyCode.Char 'c'))
        = ({ s with app_data := { s.app_data with show_error := false, error := none } }, []) := by
      simp [processMessage, buttonPress, hse, errorModeKey]
    refine ⟨?_, hq, hc, ?_, ?_⟩
    · intro k hkq hkc
      cases k with
      | Char c =>
          have hcq : c ≠ 'q' := fun h => hkq (by rw [h])
          have hcc : c ≠ 'c' := fun h => hkc (by rw [h])
          simp [processMessage, buttonPress, hse, errorModeKey, hcq, hcc]
      | Tab => simp [processMessage, buttonPress, hse, errorModeKey]
      | BackTab => simp [processMessage, buttonPress, hse, errorModeKey]
      | Home => simp [processMessage, buttonPress, hse, errorModeKey]
      | End => simp [processMessage, buttonPress, hse, errorModeKey]
      | Up => simp [processMessage, buttonPress, hse, errorModeKey]
      | Down => simp [processMessage, buttonPress, hse, errorModeKey]
      | PageUp => simp [processMessage, buttonPress, hse, errorModeKey]
      | PageDown => simp [processMessage, buttonPress, hse, errorModeKey]
      | Enter => simp [processMessage, buttonPress, hse, errorModeKey]
      | Other => simp [processMessage, buttonPress, hse, errorModeKey]
    · rw [hc]
      intro heq
      have h2 := congrArg (fun st : HandlerState => st.app_data.show_error) heq
      simp only at h2
      rw [hse] at h2
      exact Bool.noConfusion h2
    · intro hr
      rw [hq]
      intro heq
      have h2 := congrArg (fun st : HandlerState => st.is_running) heq
      simp only at h2
      rw [hr] at h2
      exact Bool.noConfusion h2
  · intro hse hsh
    have hq : processMessage env s (InputMessages.ButtonPress (KeyCode.Char 'q'))
        = ({ s with is_running := false }, []) := by
      simp [processMessage, buttonPress, hse, hsh, helpModeKey]
    have hh : processMessage env s (InputMessages.ButtonPress (KeyCode.Char 'h'))
        = ({ s with gui_state := { s.gui_state with show_help := false } }, []) := by
      simp [processMessage, buttonPress, hse, hsh, helpModeKey]
    have hm : processMessage env s (InputMessages.ButtonPress (KeyCode.Char 'm'))
        = mButton env s := by
      simp [processMessage, buttonPress, hse, hsh, helpModeKey]
    refine ⟨?_, by rw [hq], ?_, ?_, ?_⟩
    · intro k hkq hkh hkm
      cases k with
      | Char c =>
          have hcq : c ≠ 'q' := fun h => hkq (by rw [h])
          have hch : c ≠ 'h' := fun h => hkh (by rw [h])
          have hcm : c ≠ 'm' := fun h => hkm (by rw [h])
          simp [processMessage, buttonPress, hse, hsh, helpModeKey, hcq, hch, hcm]
      | Tab => simp [processMessage, buttonPress, hse, hsh, helpModeKey]
      | BackTab => simp [processMessage, buttonPress, hse, hsh, helpModeKey]
      | Home => simp [processMessage, buttonPress, hse, hsh, helpModeKey]
      | End => simp [processMessage, buttonPress, hse, hsh, helpModeKey]
      | Up => simp [processMessage, buttonPress, hse, hsh, helpModeKey]
      | Down => simp [processMessage, buttonPress, hse, hsh, helpModeKey]
      | PageUp => simp [processMessage, buttonPress, hse, hsh, helpModeKey]
      | PageDown => simp [processMessage, buttonPress, hse, hsh, helpModeKey]
      | Enter => simp [processMessage, buttonPress, hse, hsh, helpModeKey]
      | Other => simp [processMessage, buttonPress, hse, hsh, helpModeKey]
    · rw [hh]
      intro heq
      have h2 := congrArg (fun st : HandlerState => st.gui_state.show_help) heq
      simp only at h2
      rw [hsh] at h2
      exact Bool.noConfusion h2
    · rw [hm]
      intro heq
      have h2 := congrArg (fun st : HandlerState => st.mouse_capture) heq
      simp only at h2
      rw [(mButton_spec env s).1] at h2
      exact (Bool.not_ne_self s.mouse_capture) h2
    · intro hr
      rw [hq]
      intro heq
      have h2 := congrArg (fun st : HandlerState => st.is_running) heq
      simp only at h2
      rw [hr] at h2
      exact Bool.noConfusion h2
  · intro me hgate
    rcases hgate with h | h <;> simp [processMessage, h]
  · intro me h1 h2
    simp [processMessage, h1, h2]

/-- C1 witness: concrete no-ops in error and help mode, a suppressed mouse
event in error mode, and a dispatched mouse event in normal mode. -/
theorem c1_modal_routing_witness :
    processMessage envT errState (InputMessages.ButtonPress KeyCode.Tab) = (errState, [])
    ∧ processMessage envT helpState (InputMessages.ButtonPress (KeyCode.Char 'x'))
        = (helpState, [])
    ∧ processMessage envT errState (InputMessages.MouseEvent wheelEvent) = (errState, [])
    ∧ processMessage envT initHandler (InputMessages.MouseEvent wheelEvent)
        = mousePress envT initHandler wheelEvent := by
  refine ⟨?_, ?_, ?_, ?_⟩
  · exact ((c1_modal_routing envT errState).1 rfl).1 KeyCode.Tab (by decide) (by decide)
  · exact ((c1_modal_routing envT helpState).2.1 rfl rfl).1 (KeyCode.Char 'x')
      (by decide) (by decide) (by decide)
  · exact (c1_modal_routing envT errState).2.2.1 wheelEvent (Or.inl rfl)
  · exact (c1_modal_routing envT initHandler).2.2.2 wheelEvent rfl rfl

/-- C2: the sort toggle is a pure function of (current sort, header); the
result is `(H, Ascending)` exactly when the current sort is
`(H, Descending)` and `(H, Descending)` in every other case; the unsorted
state arises only from the explicit reset key `0`, never from a sort. -/
theorem c2_sort_toggle (cur : Option (Header × SortedOrder)) (hd : Header) :
    (sortResult cur hd = some (hd, SortedOrder.Asc) ↔ cur = some (hd, SortedOrder.Desc))
    ∧ (cur ≠ some (hd, SortedOrder.Desc) → sortResult cur hd = some (hd, SortedOrder.Desc))
    ∧ sortResult cur hd ≠ none
    ∧ (∀ env s, s.app_data.show_error = false → s.gui_state.show_help = false →
        (processMessage env s (InputMessages.ButtonPress (KeyCode.Char '0'))).1.app_data.sorted
          = none)
    ∧ (∀ env s msg, (processMessage env s msg).1.app_data.sorted = none →
        s.app_data.sorted = none ∨ msg = InputMessages.ButtonPress (KeyCode.Char '0')) := by
  refine ⟨?_, ?_, sortResult_ne_none cur hd, ?_, ?_⟩
  · cases cur with
    | none => simp [sortResult]
    | some p =>
        rcases p with ⟨h0, ord⟩
        by_cases hcond : ord = SortedOrder.Desc ∧ h0 = hd
        · obtain ⟨ho, hh⟩ := hcond
          subst ho
          subst hh
          simp [sortResult]
        · simp only [sortResult, if_neg hcond]
          constructor
          · intro h
            exact absurd (Option.some.inj h) (by simp)
          · intro h
            obtain ⟨hh, ho⟩ := Prod.mk.injEq .. ▸ Option.some.inj h
            exact absurd ⟨ho, hh⟩ hcond
  · intro hne
    cases cur with
    | none => rfl
    | some p =>
        rcases p with ⟨h0, ord⟩
        have hcond : ¬ (ord = SortedOrder.Desc ∧ h0 = hd) := by
          rintro ⟨rfl, rfl⟩
          exact hne rfl
        simp [sortResult, hcond]
  · intro env s h1 h2
    simp [processMessage, buttonPress, h1, h2, normalModeKey]
  · intro env s msg hnone
    cases msg with
    | ButtonPress k =>
        rcases buttonPress_sorted env s k with h | h | h
        · exact Or.inl (by rw [← h]; exact hnone)
        · exact Or.inr (by rw [h])
        · exact absurd hnone h
    | MouseEvent me =>
        by_cases hgate : s.app_data.show_error = false ∧ s.gui_state.show_help = false
        · have hpm : processMessage env s (InputMessages.MouseEvent me) = mousePress env s me := by
            simp [processMessage, hgate]
          rw [hpm] at hnone
          rcases mousePress_sorted env s me with h | ⟨hh, h⟩
          · exact Or.inl (by rw [← h]; exact hnone)
          · rw [h] at hnone
            exact absurd hnone (sortResult_ne_none _ _)
        · have hpm : processMessage env s (InputMessages.MouseEvent me) = (s, []) := by
            simp only [processMessage, if_neg hgate]
          rw [hpm] at hnone
          exact Or.inl hnone

/-- C2 witness: the spec's worked example — no sort, click Name twice,
then Cpu — plus the explicit reset. -/
theorem c2_sort_toggle_witness :
    sortResult none Header.Name = some (Header.Name, SortedOrder.Desc)
    ∧ sortResult (some (Header.Name, SortedOrder.Desc)) Header.Name
        = some (Header.Name, SortedOrder.Asc)
    ∧ sortResult (some (Header.Name, SortedOrder.Asc)) Header.Cpu
        = some (Header.Cpu, SortedOrder.Desc)
    ∧ (processMessage envT initHandler
        (InputMessages.ButtonPress (KeyCode.Char '0'))).1.app_data.sorted = none := by
  refine ⟨?_, ?_, ?_, ?_⟩
  · exact (c2_sort_toggle none Header.Name).2.1 (by decide)
  · exact ((c2_sort_toggle (some (Header.Name, SortedOrder.Desc)) Header.Name).1).2 rfl
  · exact (c2_sort_toggle (some (Header.Name, SortedOrder.Asc)) Header.Cpu).2.1 (by decide)
  · exact (c2_sort_toggle none Header.Name).2.2.2.1 envT initHandler rfl rfl

/-- C3: the mouse-capture toggle always aborts any previously scheduled
banner-clear timer before scheduling exactly one new 4000 ms timer, so at
most one banner-clear timer is ever outstanding; two toggles within the
4-second window produce exactly one banner-clear event, timed from the
second toggle, never the first. -/
theorem c3_banner_timer :
    (∀ ops : List TimerOp, (timerRun ops).2.alive.length ≤ 1)
    ∧ (∀ (env : Env) (s : HandlerState), (mButton env s).2
        = (match s.info_sleep with
           | some tm => [Effect.abortTimer tm.id]
           | none => []) ++ [Effect.spawnTimer s.next_timer_id (env.now + 4000)])
    ∧ (∀ t0 t1 T b0 b1, t0 < t1 → t1 < t0 + 4000 → t1 + 4000 ≤ T →
        (timerRun [TimerOp.advance t0, TimerOp.toggle b0, TimerOp.advance t1,
                   TimerOp.toggle b1, TimerOp.advance T]).2.cleared = [t1 + 4000]
        ∧ t1 + 4000 ≠ t0 + 4000) := by
  refine ⟨?_, ?_, ?_⟩
  · intro ops
    have h := timerRun_inv ops
    rcases hp : timerRun ops with ⟨s, w⟩
    rw [hp] at h
    simp only [TimerInv] at h
    rcases h with h1 | ⟨tm, _, h1⟩ <;> simp [hp, h1]
  · intro env s
    exact (mButton_spec env s).2.2.2.2.2
  · intro t0 t1 T b0 b1 h01 h1w hT
    exact ⟨timer_scenario t0 t1 T b0 b1 h01 h1w hT, by omega⟩

/-- C3 witness: the spec's worked example — toggles at 0 ms and 1000 ms,
then time passing — yields exactly one clear, at 5000 ms, not 4000 ms. -/
theorem c3_banner_timer_witness :
    (timerRun [TimerOp.advance 0, TimerOp.toggle true, TimerOp.advance 1000,
               TimerOp.toggle true, TimerOp.advance 10000]).2.cleared = [5000]
    ∧ (5000 : Nat) ≠ 4000
    ∧ (timerRun [TimerOp.advance 0, TimerOp.toggle true, TimerOp.advance 1000,
                 TimerOp.toggle true, TimerOp.advance 10000]).2.alive.length ≤ 1 := by
  have h := (c3_banner_timer.2.2 0 1000 10000 true true (by decide) (by decide) (by decide))
  exact ⟨h.1, by decide, c3_banner_timer.1 _⟩

/-- C4: the Enter action is a no-op unless the Commands panel is selected
and both a highlighted command and a selected container id are present;
given all three, exactly the matching typed message carrying that id is
sent, and the result never depends on the channel-send outcome. -/
theorem c4_command_dispatch (env : Env) (s : HandlerState)
    (hse : s.app_data.show_error = false) (hsh : s.gui_state.show_help = false) :
    (s.gui_state.selected_panel ≠ SelectablePanel.Commands →
       processMessage env s (InputMessages.ButtonPress KeyCode.Enter) = (s, []))
    ∧ (s.app_data.docker_command = none →
       processMessage env s (InputMessages.ButtonPress KeyCode.Enter) = (s, []))
    ∧ (s.app_data.selected_container_id = none →
       processMessage env s (InputMessages.ButtonPress KeyCode.Enter) = (s, []))
    ∧ (∀ c id, s.gui_state.selected_panel = SelectablePanel.Commands →
        s.app_data.docker_command = some c →
        s.app_data.selected_container_id = some id →
        processMessage env s (InputMessages.ButtonPress KeyCode.Enter)
          = (s, [Effect.dockerSend (dockerMessageOf c id)]))
    ∧ (∀ id, dockerMessageOf DockerControls.Pause id = DockerMessage.Pause id
        ∧ dockerMessageOf DockerControls.Unpause id = DockerMessage.Unpause id
        ∧ dockerMessageOf DockerControls.Start id = DockerMessage.Start id
        ∧ dockerMessageOf DockerControls.Stop id = DockerMessage.Stop id
        ∧ dockerMessageOf DockerControls.Restart id = DockerMessage.Restart id)
    ∧ (∀ e2 : Env, processMessage e2 s (InputMessages.ButtonPress KeyCode.Enter)
        = processMessage env s (InputMessages.ButtonPress KeyCode.Enter)) := by
  have hpm : ∀ e : Env, processMessage e s (InputMessages.ButtonPress KeyCode.Enter)
      = enterAction s := by
    intro e
    simp [processMessage, buttonPress, hse, hsh, normalModeKey]
  refine ⟨?_, ?_, ?_, ?_, ?_, ?_⟩
  · intro hp
    rw [hpm env]
    simp [enterAction, hp]
  · intro hcmd
    rw [hpm env]
    by_cases hp : s.gui_state.selected_panel = SelectablePanel.Commands <;>
      simp [enterAction, hp, hcmd]
  · intro hid
    rw [hpm env]
    by_cases hp : s.gui_state.selected_panel = SelectablePanel.Commands
    · cases hcmd : s.app_data.docker_command <;> simp [enterAction, hp, hcmd, hid]
    · simp [enterAction, hp]
  · intro c id hp hcmd hid
    rw [hpm env]
    simp [enterAction, hp, hcmd, hid]
  · intro id
    exact ⟨rfl, rfl, rfl, rfl, rfl⟩
  · intro e2
    rw [hpm env, hpm e2]

/-- C4 witness: with Commands selected, a highlighted Restart and a
selected container id, Enter emits exactly `Restart` with that id; on the
initial state Enter is a no-op. -/
theorem c4_command_dispatch_witness :
    processMessage envT cmdState (InputMessages.ButtonPress KeyCode.Enter)
      = (cmdState, [Effect.dockerSend (DockerMessage.Restart "abc123")])
    ∧ processMessage envT initHandler (InputMessages.ButtonPress KeyCode.Enter)
      = (initHandler, []) := by
  constructor
  · exact (c4_command_dispatch envT cmdState rfl rfl).2.2.2.1
      DockerControls.Restart "abc123" rfl rfl rfl
  · exact (c4_command_dispatch envT initHandler rfl rfl).1 (by decide)

/-- C7: one page-step press performs exactly 7 applications of the
corresponding single-step navigation, in both directions, on whichever
panel is selected. -/
theorem c7_page_step (env : Env) (s : HandlerState)
    (hse : s.app_data.show_error = false) (hsh : s.gui_state.show_help = false) :
    processMessage env s (InputMessages.ButtonPress KeyCode.PageDown)
      = ((processMessage env s (InputMessages.ButtonPress KeyCode.Down)).1,
         List.flatten (List.replicate 7
           (processMessage env s (InputMessages.ButtonPress KeyCode.Down)).2))
    ∧ processMessage env s (InputMessages.ButtonPress KeyCode.PageUp)
      = ((processMessage env s (InputMessages.ButtonPress KeyCode.Up)).1,
         List.flatten (List.replicate 7
           (processMessage env s (InputMessages.ButtonPress KeyCode.Up)).2))
    ∧ (processMessage env s (InputMessages.ButtonPress KeyCode.PageDown)).2.length
        = 7 * (processMessage env s (InputMessages.ButtonPress KeyCode.Down)).2.length
    ∧ (processMessage env s (InputMessages.ButtonPress KeyCode.PageUp)).2.length
        = 7 * (processMessage env s (InputMessages.ButtonPress KeyCode.Up)).2.length := by
  have hdn : processMessage env s (InputMessages.ButtonPress KeyCode.Down) = nextStep s := by
    simp [processMessage, buttonPress, hse, hsh, normalModeKey]
  have hup : processMessage env s (InputMessages.ButtonPress KeyCode.Up) = previousStep s := by
    simp [processMessage, buttonPress, hse, hsh, normalModeKey]
  have hpd : processMessage env s (InputMessages.ButtonPress KeyCode.PageDown)
      = iterateStep nextStep 7 s := by
    simp [processMessage, buttonPress, hse, hsh, normalModeKey]
  have hpu : processMessage env s (InputMessages.ButtonPress KeyCode.PageUp)
      = iterateStep previousStep 7 s := by
    simp [processMessage, buttonPress, hse, hsh, normalModeKey]
  rw [hdn, hup, hpd, hpu, iterateStep_of_fst_eq nextStep nextStep_fst,
      iterateStep_of_fst_eq previousStep previousStep_fst, nextStep_fst, previousStep_fst]
  refine ⟨rfl, rfl, ?_, ?_⟩ <;>
    (simp [List.length_flatten, List.map_replicate, List.sum_replicate]
     omega)

/-- C7 witness: on the Logs panel, PageDown is exactly 7 log next-steps
and PageUp exactly 7 log previous-steps. -/
theorem c7_page_step_witness :
    processMessage envT logsState (InputMessages.ButtonPress KeyCode.PageDown)
      = (logsState, List.replicate 7 Effect.logNext)
    ∧ processMessage envT logsState (InputMessages.ButtonPress KeyCode.PageUp)
      = (logsState, List.replicate 7 Effect.logPrevious) := by
  constructor
  · rw [(c7_page_step envT logsState rfl rfl).1]
    decide
  · rw [(c7_page_step envT logsState rfl rfl).2.1]
    decide

/-- C10: every mouse-capture toggle flips the local flag and schedules a
fresh 4000 ms banner-clear timer (after aborting any prior one) even when
the terminal side effect fails; on failure a typed `MouseCapture` error is
recorded, no banner is set, the terminal state is untouched, and the local
flag then disagrees with the terminal's actual capture state. -/
theorem c10_capture_flag_divergence (env : Env) (s : HandlerState) :
    (mButton env s).1.mouse_capture = !s.mouse_capture
    ∧ (mButton env s).1.info_sleep = some ⟨s.next_timer_id, env.now + 4000⟩
    ∧ (mButton env s).2
        = (match s.info_sleep with
           | some tm => [Effect.abortTimer tm.id]
           | none => []) ++ [Effect.spawnTimer s.next_timer_id (env.now + 4000)]
    ∧ (env.execute_ok = false →
        (mButton env s).1.app_data.error = some (AppError.MouseCapture (!s.mouse_capture))
        ∧ (mButton env s).1.app_data.show_error = true
        ∧ (mButton env s).1.gui_state.info_box = s.gui_state.info_box
        ∧ (mButton env s).1.terminal_capture = s.terminal_capture
        ∧ (s.mouse_capture = s.terminal_capture →
            (mButton env s).1.mouse_capture ≠ (mButton env s).1.terminal_capture)) := by
  obtain ⟨hcap, hsleep, _, _, _, hefs⟩ := mButton_spec env s
  refine ⟨hcap, hsleep, hefs, ?_⟩
  intro he
  obtain ⟨herr, hshow, hbox, hterm⟩ := mButton_failure env s he
  refine ⟨herr, hshow, hbox, hterm, ?_⟩
  intro hagree
  rw [hcap, hterm, ← hagree]
  exact Bool.not_ne_self s.mouse_capture

/-- C5 counterexample: in a run whose main loop performs one exec hand-off
before a normal quit, `reset_terminal` is invoked three times, not exactly
once per process run. -/
theorem c5_restoration_counterexample :
    resetCount (uiStart true false []
      [{ running := true, has_exec := true, exec_mode := some none, draw_ok := true },
       { running := false, has_exec := false, exec_mode := none, draw_ok := true }]) = 3
    ∧ (3 : Nat) ≠ 1 := by
  constructor
  · rfl
  · decide

/-- C5 (amended): on every loop-exit path — normal quit via the running
flag or a draw failure — terminal restoration runs exactly once after the
loop exits (it is the final event of every run, and at least one
restoration always happens); a run is restored exactly once in total only
when no exec hand-off occurred, since each hand-off performs additional
restorations during the loop. -/
theorem c5_loop_exit_restoration (dc : Bool) (e : List ErrIter) (g : List GuiIter) :
    (uiStart true dc e g).getLast? = some UiEvent.resetTerminal
    ∧ 1 ≤ resetCount (uiStart true dc e g)
    ∧ ((∀ it ∈ g, it.has_exec = false) → resetCount (uiStart true dc e g) = 1) := by
  refine ⟨uiStart_getLast dc e g, ?_, ?_⟩
  · rw [uiStart_reset_count]
    omega
  · intro hg
    rw [uiStart_reset_count]
    have hz : resetCount (drawUi dc e g).1 = 0 := by
      cases dc with
      | true => simpa [drawUi] using errLoop_reset_count e 5 (by omega)
      | false => simpa [drawUi] using guiLoop_no_exec_reset_count g hg
    omega

/-- C5 witness: a run with a normal quit and no exec hand-off ends in the
restoration event and restores exactly once. -/
theorem c5_loop_exit_restoration_witness :
    (uiStart true false []
      [{ running := true, has_exec := false, exec_mode := none, draw_ok := true },
       { running := false, has_exec := false, exec_mode := none, draw_ok := true }]).getLast?
      = some UiEvent.resetTerminal
    ∧ resetCount (uiStart true false []
      [{ running := true, has_exec := false, exec_mode := none, draw_ok := true },
       { running := false, has_exec := false, exec_mode := none, draw_ok := true }]) = 1 := by
  have h := c5_loop_exit_restoration false []
    [{ running := true, has_exec := false, exec_mode := none, draw_ok := true },
     { running := false, has_exec := false, exec_mode := none, draw_ok := true }]
  exact ⟨h.1, h.2.2 (by intro it hit; fin_cases hit <;> rfl)⟩

/-- C6: when a frame snapshot contains the Exec status and a session is
supplied, the iteration's trace is exactly: restore the terminal, clear,
run the session (recording any session error in the state store), clear,
restore, re-run the startup terminal setup, remove the Exec status, and
then draw — and the loop's final result is the result of the remaining
iterations, so a session error is never propagated; the re-acquisition
performs exactly the startup terminal operations. -/
theorem c6_exec_handoff (r : Option AppError) (rest : List GuiIter) :
    (guiLoop ({ running := true, has_exec := true, exec_mode := some r,
                draw_ok := true } :: rest)).1
      = [UiEvent.resetTerminal, UiEvent.clearScreen, UiEvent.runExec]
        ++ (match r with
            | some err => [UiEvent.setError err]
            | none => [])
        ++ [UiEvent.clearScreen, UiEvent.resetTerminal, UiEvent.initTerminal,
            UiEvent.statusDelExec, UiEvent.drawFrame]
        ++ (guiLoop rest).1
    ∧ (guiLoop ({ running := true, has_exec := true, exec_mode := some r,
                  draw_ok := true } :: rest)).2
      = (guiLoop rest).2
    ∧ termOpsOf UiEvent.initTerminal = initTerminalOps
    ∧ termOpsOf UiEvent.resetTerminal = resetTerminalOps := by
  refine ⟨?_, ?_, rfl, rfl⟩ <;> cases r <;> simp [guiLoop, execHandoff]

/-- C8: when the first status snapshot reports the docker-connect error,
`draw_ui` runs only the error loop (never the gui loop); that loop draws
only error overlays with a countdown value between 1 and 5; when every
draw succeeds its trace is exactly the countdown sequence and it returns
`Ok` precisely once five seconds have elapsed; a failing draw immediately
returns the fatal Terminal error with no further events. -/
theorem c8_startup_error_loop (e : List ErrIter) (g : List GuiIter) :
    drawUi true e g = errLoop 5 e
    ∧ (∀ ev ∈ (errLoop 5 e).1, ∃ n, ev = UiEvent.drawError n ∧ 1 ≤ n ∧ n ≤ 5)
    ∧ ((∀ it ∈ e, it.draw_ok = true) →
        (errLoop 5 e).1 = (errDraws 5 e).map UiEvent.drawError
        ∧ ((errLoop 5 e).2 = LoopResult.ok
            ↔ 5 ≤ e.countP (fun it => it.second_elapsed)))
    ∧ (∀ (s : Nat) (tickb : Bool) (rest : List ErrIter),
        ¬ (tickb = true ∧ (if tickb then s - 1 else s) < 1) →
        errLoop s (⟨tickb, false⟩ :: rest) = ([], LoopResult.err AppError.Terminal)) := by
  refine ⟨rfl, errLoop_countdown_bounds e 5 (by omega), ?_, ?_⟩
  · intro hok
    exact ⟨errLoop_all_ok_trace e 5 hok, errLoop_result_iff e 5 (by omega) hok⟩
  · intro s tickb rest hbrk
    simp only [errLoop]
    rw [if_neg hbrk]
    rfl

/-- C8 witness: with one countdown tick per iteration and all draws
succeeding, the loop draws 4, 3, 2, 1 and returns Ok after the fifth tick;
a failed draw before any tick aborts with the Terminal error. -/
theorem c8_startup_error_loop_witness :
    drawUi true (List.replicate 5 ⟨true, true⟩) []
      = errLoop 5 (List.replicate 5 ⟨true, true⟩)
    ∧ (errLoop 5 (List.replicate 5 ⟨true, true⟩)).1
      = [UiEvent.drawError 4, UiEvent.drawError 3, UiEvent.drawError 2, UiEvent.drawError 1]
    ∧ (errLoop 5 (List.replicate 5 ⟨true, true⟩)).2 = LoopResult.ok
    ∧ errLoop 5 [⟨false, false⟩] = ([], LoopResult.err AppError.Terminal) := by
  have h := c8_startup_error_loop (List.replicate 5 ⟨true, true⟩) []
  have hok : ∀ it ∈ List.replicate 5 (⟨true, true⟩ : ErrIter), it.draw_ok = true := by
    intro it hit
    rw [List.eq_of_mem_replicate hit]
  refine ⟨h.1, ?_, ?_, ?_⟩
  · rw [(h.2.2.1 hok).1]
    decide
  · exact (h.2.2.1 hok).2.mpr (by decide)
  · exact h.2.2.2 5 false [] (by decide)

/-- C9: the running flag is observed by both loops every iteration and
halts them promptly — the input coordinator breaks right after the message
that cleared the flag (and any queued suffix is never processed), and the
gui loop checks the flag at the top of each iteration, exits immediately
with no actions when it is false, and ignores everything scheduled after
that iteration. -/
theorem c9_running_flag_shutdown :
    (∀ (env : Env) (s : HandlerState) (msg : InputMessages)
        (rest : List (Env × InputMessages)),
       (processMessage env s msg).1.is_running = false →
       inputLoop s ((env, msg) :: rest) = processMessage env s msg)
    ∧ (∀ (s : HandlerState) (pre : List (Env × InputMessages)) (p : Env × InputMessages)
          (extra : List (Env × InputMessages)),
       (inputLoop s (pre ++ [p])).1.is_running = false →
       inputLoop s (pre ++ [p] ++ extra) = inputLoop s (pre ++ [p]))
    ∧ (∀ (it : GuiIter) (post : List GuiIter), it.running = false →
       guiLoop (it :: post) = ([], LoopResult.ok))
    ∧ (∀ (pre : List GuiIter) (it : GuiIter) (post : List GuiIter), it.running = false →
       guiLoop (pre ++ it :: post) = guiLoop (pre ++ [it])) := by
  exact ⟨inputLoop_head_stop, fun s pre => inputLoop_suffix_irrelevant pre s,
         guiLoop_head_stop, fun pre it post h => guiLoop_suffix_irrelevant pre it post h⟩

/-- C9 witness: a quit key stops the input loop before a queued Tab is
processed, and a false running flag exits the gui loop with no actions. -/
theorem c9_running_flag_shutdown_witness :
    inputLoop initHandler
        [(envT, InputMessages.ButtonPress (KeyCode.Char 'q')),
         (envT, InputMessages.ButtonPress KeyCode.Tab)]
      = processMessage envT initHandler (InputMessages.ButtonPress (KeyCode.Char 'q'))
    ∧ guiLoop [{ running := false, has_exec := false, exec_mode := none, draw_ok := true }]
      = ([], LoopResult.ok) := by
  constructor
  · exact c9_running_flag_shutdown.1 envT initHandler
      (InputMessages.ButtonPress (KeyCode.Char 'q'))
      [(envT, InputMessages.ButtonPress KeyCode.Tab)] (by decide)
  · exact c9_running_flag_shutdown.2.2.1
      { running := false, has_exec := false, exec_mode := none, draw_ok := true } [] rfl

/-- C10 witness: a failing toggle from the initial state flips the flag,
records `MouseCapture false`, and leaves flag and terminal in disagreement. -/
theorem c10_capture_flag_divergence_witness :
    (mButton envFail initHandler).1.mouse_capture = false
    ∧ (mButton envFail initHandler).1.app_data.error = some (AppError.MouseCapture false)
    ∧ (mButton envFail initHandler).1.mouse_capture
        ≠ (mButton envFail initHandler).1.terminal_capture := by
  have h := c10_capture_flag_divergence envFail initHandler
  refine ⟨?_, ?_, ?_⟩
  · rw [h.1]
    rfl
  · exact (h.2.2.2 rfl).1
  · exact (h.2.2.2 rfl).2.2.2.2 rfl

end Oxker
